import Mathlib

/-!
Shallow embedding of the resilient data-access core of the subscriptions
service: the repository error taxonomy and retryability predicate
(`internal/repository/errors.go`, `internal/application/app.go`), the
billing-month arithmetic (`internal/repository/utils.go`), the summary
aggregation loop (`internal/repository/repository.go`), the backoff
strategies and retry executor (`internal/retry`), and the configuration
wiring (`internal/config.Load`, `newRepoRetrier`).

Modelling conventions.  Durations (Go `time.Duration`) are integers
counting nanoseconds.  Dates are proleptic Gregorian day numbers;
`time.Time` values built from bare dates sit at midnight UTC, so Go's
`b.Sub(a).Hours()/24` equals the difference of day numbers exactly.  Go
integer division truncates toward zero; every division reached below has
non-negative operands, where Lean's integer division agrees with Go's.
The float64 arithmetic of `addJitter` is modelled exactly over `ℚ`, with
Go's float64-to-int64 conversion as truncation toward zero, and the draw
of `rand.Float64()` passed as an explicit parameter `u ∈ [0,1)`.
-/

/-- Observations the classifier `wrapDBError` makes on a non-nil raw
collaborator error: `errors.Is(err, pgx.ErrNoRows)`,
`errors.Is(err, pgx.ErrTxClosed)`, whether the message contains
"current transaction is aborted", and the `pgconn.PgError` code when
`errors.As` finds one in the chain. -/
structure RawError where
  isNoRows : Bool
  isTxClosed : Bool
  msgAborted : Bool
  pgCode : Option String
  deriving DecidableEq, Repr

/-- Errors surfaced by the repository layer: the sentinel errors declared in
`internal/repository/errors.go`, plus the unrecognized results of
`wrapDBError`, which preserve the original error and, when present, the
Postgres diagnostic code. -/
inductive RepoError where
  | errInvalidID
  | errNilValue
  | errNotFound
  | errDuplicate
  | errForeignKeyViolation
  | errNoRowsAffected
  | errTxAborted
  | unknownPg (code : String) (orig : RawError)
  | unknownRaw (orig : RawError)
  deriving DecidableEq, Repr

/-- Embedding of `wrapDBError` (errors.go): converts a raw collaborator
error (`none` models a nil error) into a repository error, following the
source's branch order: `pgx.ErrNoRows`, then `pgx.ErrTxClosed`, then the
aborted-transaction message, then the `pgconn.PgError` code switch, and
otherwise the original error unchanged. -/
def wrapDBError : Option RawError → Option RepoError
  | none => none
  | some err =>
    if err.isNoRows then some .errNotFound
    else if err.isTxClosed then some .errTxAborted
    else if err.msgAborted then some .errTxAborted
    else
      match err.pgCode with
      | some code =>
        if code = "23505" then some .errDuplicate
        else if code = "23503" then some .errForeignKeyViolation
        else some (.unknownPg code err)
      | none => some (.unknownRaw err)

/-- Models `errors.Is(err, target)` for the sentinel targets consulted by
`isRetryableFunc`: the sentinels are distinct package-level error values
and none of them occurs in the unwrap chain of any other error surfaced by
the repository layer, so the check is equality on `RepoError`. -/
def errorsIs (err target : RepoError) : Bool := err == target

/-- The `unretryableErrors` list built inside `isRetryableFunc` (app.go).
The source lists `repository.ErrNotFound` twice and does not list
`repository.ErrNilValue`. -/
def unretryableErrors : List RepoError :=
  [.errDuplicate, .errNotFound, .errInvalidID, .errForeignKeyViolation, .errNotFound]

/-- Embedding of `isRetryableFunc` (app.go): return false as soon as
`errors.Is` matches one entry of `unretryableErrors`, true otherwise. -/
def isRetryableFunc (err : RepoError) : Bool :=
  !(unretryableErrors.any (fun u => errorsIs err u))

/-- Day number of a proleptic Gregorian date (days since 1970-01-01), for
years ≥ 1; all intermediate division operands are non-negative there, so
the result matches the day arithmetic of Go's `time` package on UTC
dates. -/
def daysFromCivil (y m d : Int) : Int :=
  let yAdj := if m ≤ 2 then y - 1 else y
  let era := yAdj / 400
  let yoe := yAdj - era * 400
  let mp := (m + 9) % 12
  let doy := (153 * mp + 2) / 5 + d - 1
  let doe := yoe * 365 + yoe / 4 - yoe / 100 + doy
  era * 146097 + doe - 719468

/-- Embedding of `monthsInclusive` (utils.go) on day numbers.  For
date-valued times, `b.Before(a)` is `b < a` and
`int(b.Sub(a).Hours()/24)` is `b - a`; the division operands are
non-negative whenever it is reached, so Go's truncating division agrees
with Lean's. -/
def monthsInclusive (a b : Int) : Int :=
  if b < a then 0
  else
    let days := (b - a) + 1
    (days + 29) / 30

/-- `monthsInclusive` applied to two civil dates, as exercised by the unit
tests in `utils_test.go`. -/
def monthsBilled (y1 m1 d1 y2 m2 d2 : Int) : Int :=
  monthsInclusive (daysFromCivil y1 m1 d1) (daysFromCivil y2 m2 d2)

/-- The data of one row scanned by the `Summary` loop (repository.go):
price, start_date, and end_date (a NULL end is `none`); dates as day
numbers. -/
structure SummaryRow where
  price : Int
  startDate : Int
  endDate : Option Int
  deriving DecidableEq, Repr

/-- The query range of `models.SummaryRequest`: `From` and `To`, both
inclusive. -/
structure DateRange where
  fromDate : Int
  toDate : Int
  deriving DecidableEq, Repr

/-- The body of the `Summary` loop for one row (repository.go):
`ovStart := startDate; if q.From.After(ovStart) { ovStart = q.From }`,
`ovEnd := q.To; if endDate != nil && endDate.Before(ovEnd) { ovEnd = *endDate }`,
`continue` when `ovEnd.Before(ovStart)`, otherwise
`price * monthsInclusive(ovStart, ovEnd)`. -/
def rowContribution (q : DateRange) (row : SummaryRow) : Int :=
  let ovStart := if row.startDate < q.fromDate then q.fromDate else row.startDate
  let ovEnd :=
    match row.endDate with
    | some e => if e < q.toDate then e else q.toDate
    | none => q.toDate
  if ovEnd < ovStart then 0
  else row.price * monthsInclusive ovStart ovEnd

/-- Embedding of the aggregation of `SubscriptionsRepo.Summary`
(repository.go): `total := 0`, then `total += price * months` row by
row. -/
def Summary (q : DateRange) (rows : List SummaryRow) : Int :=
  rows.foldl (fun total row => total + rowContribution q row) 0

/-- Specification-side per-period contribution, written from the spec's
words (§4.4): intersection
`[max(period.start, range.from), min(period.end ?? range.to, range.to)]`;
an empty intersection (`ovEnd < ovStart`) contributes 0; otherwise
`price × ceil(((ovEnd − ovStart) in days + 1) / 30)`. -/
def specContribution (q : DateRange) (row : SummaryRow) : Int :=
  let ovStart := max row.startDate q.fromDate
  let ovEnd := min (row.endDate.getD q.toDate) q.toDate
  if ovEnd < ovStart then 0
  else row.price * ⌈((ovEnd - ovStart + 1 : ℚ)) / 30⌉

/-- One second of Go `time.Duration`, i.e. 10^9 nanoseconds; durations
are modelled as integer nanosecond counts throughout. -/
def second : Int := 1000000000

/-- Truncation of a rational toward zero, modelling Go's float64-to-int64
conversion (`q.num / q.den` floors, so it is the truncation on the
non-negative side and is negated on the other). -/
def ratTrunc (q : ℚ) : Int :=
  if 0 ≤ q then q.num / (q.den : Int) else -((-q).num / ((-q).den : Int))

/-- Embedding of `addJitter` (backoff source): jitter outside (0,1) leaves
the duration unchanged; otherwise the duration is scaled by `1 + delta`
with `delta = (u*2 - 1) * jitter`, `u` being the explicit draw of
`rand.Float64()` (`u ∈ [0,1)`).  Real arithmetic is modelled exactly over
`ℚ`. -/
def addJitter (d : Int) (jitter : ℚ) (u : ℚ) : Int :=
  if jitter ≤ 0 ∨ 1 ≤ jitter then d
  else ratTrunc ((d : ℚ) * (1 + (u * 2 - 1) * jitter))

/-- `retry.FixedBackoff` (backoff source). -/
structure FixedBackoff where
  Interval : Int
  Jitter : ℚ
  deriving DecidableEq, Repr

/-- Embedding of `FixedBackoff.Next`: the fixed interval with jitter
applied. -/
def FixedBackoff.Next (f : FixedBackoff) (_attempt : Nat) (u : ℚ) : Int :=
  addJitter f.Interval f.Jitter u

/-- `retry.LinearBackoff` (backoff source). -/
structure LinearBackoff where
  Base : Int
  Step : Int
  Max : Int
  Jitter : ℚ
  deriving DecidableEq, Repr

/-- Embedding of `LinearBackoff.Next`: `d := Base + attempt*Step`; when
`Max > 0 && d > Max` return `Max` (without jitter); otherwise return
`addJitter(d, Jitter)`. -/
def LinearBackoff.Next (l : LinearBackoff) (attempt : Nat) (u : ℚ) : Int :=
  let d := l.Base + (attempt : Int) * l.Step
  if 0 < l.Max ∧ l.Max < d then l.Max
  else addJitter d l.Jitter u

/-- `retry.ExponentialBackoff` (backoff source). -/
structure ExponentialBackoff where
  Base : Int
  Factor : ℚ
  Max : Int
  Jitter : ℚ
  deriving DecidableEq, Repr

/-- Embedding of `ExponentialBackoff.Next`:
`d := float64(Base) * Factor^attempt`; when `Max > 0 && d > float64(Max)`
return `Max`; otherwise return `addJitter(Duration(d), Jitter)`. -/
def ExponentialBackoff.Next (e : ExponentialBackoff) (attempt : Nat) (u : ℚ) : Int :=
  let d : ℚ := (e.Base : ℚ) * e.Factor ^ attempt
  if 0 < e.Max ∧ (e.Max : ℚ) < d then e.Max
  else addJitter (ratTrunc d) e.Jitter u

/-- The `retry.Backoff` interface value held by a retrier: one of the three
strategy implementations. -/
inductive Backoff where
  | fixed (b : FixedBackoff)
  | linear (b : LinearBackoff)
  | exponential (b : ExponentialBackoff)
  deriving DecidableEq, Repr

/-- Whether a `Backoff` interface value is the `FixedBackoff`
implementation. -/
def Backoff.isFixed : Backoff → Bool
  | .fixed _ => true
  | _ => false

/-- Embedding of `defaultBackoff` (retry.go): a `LinearBackoff` with
base 1s, step 1s, max 10s, jitter 0.1. -/
def defaultBackoff : Backoff :=
  .linear ⟨second, second, 10 * second, 1/10⟩

/-- Embedding of `defaultAttempts` (retry.go). -/
def defaultAttempts : Int := 3

/-- The configuration-relevant state of a `retrier` (retry.go): strategy,
attempt bound, and the injected retryability predicate. -/
structure Retrier where
  backoff : Backoff
  maxAttempts : Int
  isRetryable : RepoError → Bool

/-- The `config.Retry` block (config source). -/
structure RetryConfig where
  backoff : String
  base : Int
  factor : ℚ
  max : Int
  maxAttempts : Int
  jitter : ℚ
  deriving DecidableEq, Repr

/-- Embedding of `newRepoRetrier` (app.go): start from `retry.New`'s
defaults, apply `WithMaxAttempts(cfg.MaxAttempts)` and
`WithIsRetryableFunc(isRetryableFunc)` (the passed predicate is non-nil),
and apply `WithBackoff` with an `ExponentialBackoff` built from the
configuration only when `cfg.Backoff == "exponential"`. -/
def newRepoRetrier (cfg : RetryConfig) : Retrier :=
  { backoff :=
      if cfg.backoff = "exponential" then
        .exponential ⟨cfg.base, cfg.factor, cfg.max, cfg.jitter⟩
      else defaultBackoff
    maxAttempts := cfg.maxAttempts
    isRetryable := isRetryableFunc }

/-- The retry-related keys as present (or absent) in the configuration file
and environment consumed by `config.Load`. -/
structure RetryConfigInput where
  backoff : Option String
  base : Option Int
  factor : Option ℚ
  max : Option Int
  maxAttempts : Option Int
  jitter : Option ℚ
  deriving DecidableEq, Repr

/-- Embedding of the retry portion of `config.Load` (config source):
`SetDefault` registers `retry.max_attempts = 3`, `retry.backoff = "fixed"`
and `retry.jitter = 0.0`; keys without a registered default unmarshal to
their zero values when absent. -/
def loadRetry (c : RetryConfigInput) : RetryConfig :=
  { backoff := c.backoff.getD "fixed"
    base := c.base.getD 0
    factor := c.factor.getD 0
    max := c.max.getD 0
    maxAttempts := c.maxAttempts.getD 3
    jitter := c.jitter.getD 0 }

/-- Outcome of `retrier.Do` (retry.go), one constructor per return branch:
success (`nil`), the context's cancellation error, the
"unretryable error: %w" wrapper, the "all attempts failed: %w" wrapper
(carrying the last observed failure, `none` when no attempt ever ran), and
divergence (the Go loop running longer than the modelling fuel, reachable
only with `maxAttempts = 0`). -/
inductive DoResult where
  | success
  | ctxCancelled
  | unretryable (e : RepoError)
  | exhausted (e : Option RepoError)
  | diverged
  deriving DecidableEq, Repr

/-- The loop of `retrier.Do` (retry.go).  `f k` is the error returned by
the k-th invocation of the attempt function (`none` = success); `ctxTop k`
is whether `ctx.Err()` is non-nil at the top-of-loop check of iteration
`k`; `ctxSleep k` is whether cancellation wins the race against the
backoff timer at the end of iteration `k`.  The second component counts
invocations of the attempt function.  `fuel` bounds the number of loop
continuations the model unfolds; the loop condition and all return
branches are evaluated before fuel is consumed, so every terminating Go
execution is reproduced exactly by a large enough fuel. -/
def doLoop (maxAttempts : Int) (isRetryable : RepoError → Bool)
    (f : Nat → Option RepoError) (ctxTop ctxSleep : Nat → Bool)
    (fuel attempt calls : Nat) (lastErr : Option RepoError) : DoResult × Nat :=
  if maxAttempts = 0 ∨ (attempt : Int) < maxAttempts then
    if ctxTop attempt then (.ctxCancelled, calls)
    else
      match f attempt with
      | none => (.success, calls + 1)
      | some e =>
        if isRetryable e then
          if ctxSleep attempt then (.ctxCancelled, calls + 1)
          else
            match fuel with
            | 0 => (.diverged, calls + 1)
            | fuel' + 1 =>
              doLoop maxAttempts isRetryable f ctxTop ctxSleep fuel'
                (attempt + 1) (calls + 1) (some e)
        else (.unretryable e, calls + 1)
  else (.exhausted lastErr, calls)

/-- Embedding of `retrier.Do` (retry.go): run the loop from attempt 0 with
no error observed yet; returns the outcome and how many times the attempt
function was invoked. -/
def retrierDo (maxAttempts : Int) (isRetryable : RepoError → Bool)
    (f : Nat → Option RepoError) (ctxTop ctxSleep : Nat → Bool)
    (fuel : Nat) : DoResult × Nat :=
  doLoop maxAttempts isRetryable f ctxTop ctxSleep fuel 0 0 none


/-- Ceiling of `n / 30` over `ℚ`, computed by integer division. -/
theorem ceil_div_thirty (n : Int) : ⌈((n : ℚ)) / 30⌉ = (n + 29) / 30 := by
  rw [Int.ceil_eq_iff]
  have key1 : 30 * ((n + 29) / 30) - 30 < n := by omega
  have key2 : n ≤ 30 * ((n + 29) / 30) := by omega
  constructor
  · rw [lt_div_iff₀ (by norm_num : (0:ℚ) < 30)]
    have k1 : (30 * (((n + 29) / 30 : ℤ) : ℚ) - 30) < (n : ℚ) := by exact_mod_cast key1
    linarith
  · rw [div_le_iff₀ (by norm_num : (0:ℚ) < 30)]
    have k2 : (n : ℚ) ≤ 30 * (((n + 29) / 30 : ℤ) : ℚ) := by exact_mod_cast key2
    linarith

/-- On a non-empty inclusive range, `monthsInclusive` is the 30-day-bucket
ceiling of the inclusive day count. -/
theorem monthsInclusive_eq_ceil (a b : Int) (h : a ≤ b) :
    monthsInclusive a b = ⌈((b : ℚ) - a + 1) / 30⌉ := by
  have hcast : ((b : ℚ) - a + 1) = ((b - a + 1 : ℤ) : ℚ) := by push_cast; ring
  rw [hcast, ceil_div_thirty]
  simp only [monthsInclusive, if_neg (not_lt.mpr h)]

/-- C3: for all day numbers a ≤ b, `monthsInclusive(a, b)` equals
`ceil(((b − a) in days + 1) / 30)` (inclusive day count in 30-day
buckets), and the fixture values hold: monthsBilled(2025-01-01,2025-01-01)
= 1, (..,2025-01-29) = 1, (..,2025-01-30) = 1, (..,2025-01-31) = 2, and
(2025-03-01,2025-01-01) = 0 since the end precedes the start. -/
theorem c3_monthsInclusive_ceil :
    (∀ a b : Int, a ≤ b → monthsInclusive a b = ⌈((b : ℚ) - a + 1) / 30⌉)
    ∧ monthsBilled 2025 1 1 2025 1 1 = 1
    ∧ monthsBilled 2025 1 1 2025 1 29 = 1
    ∧ monthsBilled 2025 1 1 2025 1 30 = 1
    ∧ monthsBilled 2025 1 1 2025 1 31 = 2
    ∧ monthsBilled 2025 3 1 2025 1 1 = 0 :=
  ⟨monthsInclusive_eq_ceil, by decide, by decide, by decide, by decide, by decide⟩

/-- Witness for C3: the bucket formula applied to the concrete inclusive
range from day 0 to day 30 (31 inclusive days, hence 2 buckets). -/
theorem c3_monthsInclusive_ceil_witness :
    monthsInclusive 0 30 = ⌈((30 : ℚ) - 0 + 1) / 30⌉ :=
  c3_monthsInclusive_ceil.1 0 30 (by decide)

/-- C1 (evaluating the code at the spec's error classes): the retryability
predicate consumed by the retrier returns false for NotFound, Duplicate,
ForeignKeyViolation and the non-positive-identifier error, and true for
TransactionAborted and Unknown — but, against the claim, it also returns
true (retryable) for the required-value-absent error `ErrNilValue`: the
`unretryableErrors` list omits it while listing `ErrNotFound` twice. -/
theorem c1_isRetryableFunc_eval :
    isRetryableFunc .errNotFound = false
    ∧ isRetryableFunc .errDuplicate = false
    ∧ isRetryableFunc .errForeignKeyViolation = false
    ∧ isRetryableFunc .errInvalidID = false
    ∧ isRetryableFunc .errTxAborted = true
    ∧ isRetryableFunc (.unknownRaw ⟨false, false, false, none⟩) = true
    ∧ isRetryableFunc (.unknownPg "XX000" ⟨false, false, false, some "XX000"⟩) = true
    ∧ isRetryableFunc .errNilValue = true := by
  decide

/-- C8: the classifier maps, in priority order, the no-matching-row
sentinel to NotFound; the transaction-closed sentinel or a message
indicating an aborted transaction to TransactionAborted; constraint code
23505 to Duplicate; code 23503 to ForeignKeyViolation; and any
unrecognized error to an Unknown result preserving the original error and
its diagnostic code; it is total on errors (never panics). -/
theorem c8_wrapDBError_spec (e : RawError) :
    (e.isNoRows = true → wrapDBError (some e) = some .errNotFound)
    ∧ (e.isNoRows = false → e.isTxClosed = true ∨ e.msgAborted = true →
        wrapDBError (some e) = some .errTxAborted)
    ∧ (e.isNoRows = false → e.isTxClosed = false → e.msgAborted = false →
        e.pgCode = some "23505" → wrapDBError (some e) = some .errDuplicate)
    ∧ (e.isNoRows = false → e.isTxClosed = false → e.msgAborted = false →
        e.pgCode = some "23503" → wrapDBError (some e) = some .errForeignKeyViolation)
    ∧ (∀ code, e.isNoRows = false → e.isTxClosed = false → e.msgAborted = false →
        e.pgCode = some code → code ≠ "23505" → code ≠ "23503" →
        wrapDBError (some e) = some (.unknownPg code e))
    ∧ (e.isNoRows = false → e.isTxClosed = false → e.msgAborted = false →
        e.pgCode = none → wrapDBError (some e) = some (.unknownRaw e))
    ∧ (wrapDBError (some e)).isSome = true := by
  obtain ⟨nr, tc, ma, pc⟩ := e
  refine ⟨?_, ?_, ?_, ?_, ?_, ?_, ?_⟩
  · intro h; simp_all [wrapDBError]
  · intro h1 h2; rcases h2 with h2 | h2 <;> simp_all [wrapDBError]
  · intro h1 h2 h3 h4; simp_all [wrapDBError]
  · intro h1 h2 h3 h4; simp_all [wrapDBError]
  · intro code h1 h2 h3 h4 h5 h6; simp_all [wrapDBError]
  · intro h1 h2 h3 h4; simp_all [wrapDBError]
  · rcases pc with _ | code <;> cases nr <;> cases tc <;> cases ma <;>
      simp only [wrapDBError, Option.isSome_some] <;> split_ifs <;> rfl

/-- Witness for C8: the classifier at a unique-constraint violation (code
23505) yields Duplicate. -/
theorem c8_wrapDBError_spec_witness :
    wrapDBError (some ⟨false, false, false, some "23505"⟩) = some .errDuplicate :=
  (c8_wrapDBError_spec ⟨false, false, false, some "23505"⟩).2.2.1 rfl rfl rfl rfl

/-- The loop body of `Summary` computes, row by row, exactly the
specification's intersection contribution. -/
theorem rowContribution_eq_spec (q : DateRange) (row : SummaryRow) :
    rowContribution q row = specContribution q row := by
  have hs : (if row.startDate < q.fromDate then q.fromDate else row.startDate)
      = max row.startDate q.fromDate := by
    rcases lt_or_le row.startDate q.fromDate with h | h
    · simp [if_pos h, max_eq_right h.le]
    · simp [if_neg (not_lt.mpr h), max_eq_left h]
  have he : (match row.endDate with
      | some e => if e < q.toDate then e else q.toDate
      | none => q.toDate) = min (row.endDate.getD q.toDate) q.toDate := by
    cases row.endDate with
    | none => simp
    | some e =>
      rcases lt_or_le e q.toDate with h | h
      · simp [if_pos h, min_eq_left h.le]
      · simp [if_neg (not_lt.mpr h), min_eq_right h]
  simp only [rowContribution, specContribution, hs, he]
  split_ifs with hlt
  · rfl
  · rw [monthsInclusive_eq_ceil _ _ (not_lt.mp hlt)]

/-- Folding the loop body over the rows adds the sum of spec
contributions to the accumulator. -/
theorem summary_foldl_eq (q : DateRange) :
    ∀ (rows : List SummaryRow) (init : Int),
      rows.foldl (fun total row => total + rowContribution q row) init
        = init + (rows.map (specContribution q)).sum := by
  intro rows
  induction rows with
  | nil => intro init; simp
  | cons r rs ih =>
    intro init
    rw [List.foldl_cons, ih, List.map_cons, List.sum_cons, rowContribution_eq_spec]
    ring

/-- C4: the aggregation equals the sum over periods of the
specification's per-period contribution `price × monthsBilled` over the
intersection `[max(start, from), min(end ?? to, to)]`; an open-ended
period behaves exactly as one whose end is `range.to`; and a period whose
intersection is empty (`ovEnd < ovStart`, which covers `end < start`)
contributes exactly 0 — the loop `continue`s, it never errors. -/
theorem c4_summary_spec :
    (∀ (q : DateRange) (rows : List SummaryRow),
      Summary q rows = (rows.map (specContribution q)).sum)
    ∧ (∀ (q : DateRange) (row : SummaryRow),
        row.endDate = none →
        rowContribution q row = rowContribution q ⟨row.price, row.startDate, some q.toDate⟩)
    ∧ (∀ (q : DateRange) (row : SummaryRow),
        min (row.endDate.getD q.toDate) q.toDate < max row.startDate q.fromDate →
        rowContribution q row = 0) := by
  refine ⟨?_, ?_, ?_⟩
  · intro q rows
    simpa using summary_foldl_eq q rows 0
  · intro q row hnone
    obtain ⟨p, s, e⟩ := row
    cases hnone
    simp [rowContribution]
  · intro q row hlt
    rw [rowContribution_eq_spec]
    simp only [specContribution]
    rw [if_pos hlt]

/-- Witness for C4: a period starting after the query range ends (start
day 20, open-ended, over range [0, 10]) has an empty intersection and
contributes zero. -/
theorem c4_summary_spec_witness :
    rowContribution ⟨0, 10⟩ ⟨5, 20, none⟩ = 0 :=
  c4_summary_spec.2.2 ⟨0, 10⟩ ⟨5, 20, none⟩ (by decide)

/-- Counterexample for C2: loading a configuration that explicitly selects
`backoff = "fixed"` (with a 5s base) does not produce the fixed backoff
variant — `newRepoRetrier` installs a custom strategy only for
"exponential", so the retrier keeps the default linear backoff
(base 1s, step 1s, max 10s, jitter 0.1). -/
theorem c2_backoff_fixed_counterexample :
    (newRepoRetrier (loadRetry ⟨some "fixed", some (5 * second), none, none, none, none⟩)).backoff.isFixed = false
    ∧ (newRepoRetrier (loadRetry ⟨some "fixed", some (5 * second), none, none, none, none⟩)).backoff
      = .linear ⟨second, second, 10 * second, 1/10⟩ := by
  constructor
  · rfl
  · rfl

/-- C2 (amended): only `backoff = "exponential"` selects a variant — the
exponential one, built from the configured base, factor, max and jitter;
every other value of `backoff` (including "fixed" and "linear") leaves
the retrier's built-in default, a linear backoff with base 1s, step 1s,
max 10s, jitter 0.1; `maxAttempts` is always taken from the
configuration; and when the retry keys are unspecified the loaded
defaults (maxAttempts = 3, backoff = "fixed") make the effective retrier
have maxAttempts 3 and that default linear backoff. -/
theorem c2_newRepoRetrier_amended :
    (∀ cfg : RetryConfig, cfg.backoff = "exponential" →
      (newRepoRetrier cfg).backoff = .exponential ⟨cfg.base, cfg.factor, cfg.max, cfg.jitter⟩)
    ∧ (∀ cfg : RetryConfig, cfg.backoff ≠ "exponential" →
      (newRepoRetrier cfg).backoff = .linear ⟨second, second, 10 * second, 1/10⟩)
    ∧ (∀ cfg : RetryConfig, (newRepoRetrier cfg).maxAttempts = cfg.maxAttempts)
    ∧ (∀ inp : RetryConfigInput, inp.backoff = none → inp.maxAttempts = none →
      (newRepoRetrier (loadRetry inp)).maxAttempts = 3
      ∧ (newRepoRetrier (loadRetry inp)).backoff = .linear ⟨second, second, 10 * second, 1/10⟩) := by
  refine ⟨?_, ?_, ?_, ?_⟩
  · intro cfg h
    simp [newRepoRetrier, h]
  · intro cfg h
    simp [newRepoRetrier, h, defaultBackoff]
  · intro cfg
    rfl
  · intro inp hb hm
    refine ⟨?_, ?_⟩
    · simp [newRepoRetrier, loadRetry, hm]
    · simp [newRepoRetrier, loadRetry, hb, defaultBackoff]

/-- Witness for C2 (amended): an explicit exponential configuration yields
the exponential variant with its parameters, and an empty configuration
yields maxAttempts 3 with the default linear backoff. -/
theorem c2_newRepoRetrier_amended_witness :
    (newRepoRetrier ⟨"exponential", second, 2, 10 * second, 5, 0⟩).backoff
      = .exponential ⟨second, 2, 10 * second, 0⟩
    ∧ (newRepoRetrier (loadRetry ⟨none, none, none, none, none, none⟩)).maxAttempts = 3 :=
  ⟨c2_newRepoRetrier_amended.1 ⟨"exponential", second, 2, 10 * second, 5, 0⟩ rfl,
   (c2_newRepoRetrier_amended.2.2.2 ⟨none, none, none, none, none, none⟩ rfl rfl).1⟩

/-- C5: with maxAttempts = 3, an operation that always fails with errors
the predicate classifies as retryable, and a context that is never
cancelled, `Do` invokes the operation exactly 3 times and returns the
attempts-exhausted wrapper around the last observed failure. -/
theorem c5_retrierDo_exhausted (isR : RepoError → Bool) (errs : Nat → RepoError)
    (fuel : Nat) (hR : ∀ k, isR (errs k) = true) (hfuel : 3 ≤ fuel) :
    retrierDo 3 isR (fun k => some (errs k)) (fun _ => false) (fun _ => false) fuel
      = (.exhausted (some (errs 2)), 3) := by
  obtain ⟨f, rfl⟩ : ∃ f, fuel = f + 1 + 1 + 1 := ⟨fuel - 3, by omega⟩
  simp only [retrierDo]
  rw [doLoop]
  norm_num [hR 0]
  rw [doLoop]
  norm_num [hR 1]
  rw [doLoop]
  norm_num [hR 2]
  rw [doLoop]
  norm_num

/-- Witness for C5: a constant retryable Unknown failure under the
repository's own predicate is invoked three times, then wrapped as
attempts-exhausted. -/
theorem c5_retrierDo_exhausted_witness :
    retrierDo 3 isRetryableFunc (fun _ => some (.unknownRaw ⟨false, false, false, none⟩))
      (fun _ => false) (fun _ => false) 3
      = (.exhausted (some (.unknownRaw ⟨false, false, false, none⟩)), 3) :=
  by
  have hr : isRetryableFunc (.unknownRaw ⟨false, false, false, none⟩) = true := by decide
  exact c5_retrierDo_exhausted isRetryableFunc
    (fun _ => .unknownRaw ⟨false, false, false, none⟩) 3 (fun _ => hr) (by norm_num)

/-- C6: when the operation fails with an error the injected predicate
classifies as not retryable, `Do` (entered with a non-negative attempt
bound and a live context) invokes the operation exactly once and returns
the terminal non-retryable wrapper around that error. -/
theorem c6_retrierDo_unretryable (m : Int) (isR : RepoError → Bool)
    (f : Nat → Option RepoError) (e : RepoError) (fuel : Nat)
    (hm : 0 ≤ m) (hf : f 0 = some e) (hr : isR e = false) :
    retrierDo m isR f (fun _ => false) (fun _ => false) fuel = (.unretryable e, 1) := by
  simp only [retrierDo]
  rw [doLoop]
  rw [if_pos (by omega : m = 0 ∨ ((0 : Nat) : Int) < m)]
  norm_num [hf, hr]

/-- Witness for C6: a NotFound-classified failure under the repository's
own predicate is invoked once and wrapped as non-retryable. -/
theorem c6_retrierDo_unretryable_witness :
    retrierDo 3 isRetryableFunc (fun _ => some .errNotFound) (fun _ => false) (fun _ => false) 5
      = (.unretryable .errNotFound, 1) :=
  c6_retrierDo_unretryable 3 isRetryableFunc (fun _ => some .errNotFound) .errNotFound 5
    (by norm_num) rfl (by decide)

/-- Counterexample for C7: with maxAttempts = -1 (a constructible Retrier
configuration) and an already-cancelled context, `Do` does not return the
cancellation error — the loop body never runs, so it returns the
attempts-exhausted wrapper around a nil error. -/
theorem c7_cancelled_counterexample :
    (retrierDo (-1) isRetryableFunc (fun _ => some .errNilValue) (fun _ => true)
      (fun _ => false) 5).1 ≠ DoResult.ctxCancelled := by
  rw [retrierDo, doLoop]
  norm_num
  decide

/-- C7 (amended): for every operation and every Retrier configuration with
non-negative maxAttempts (the configurations the spec defines: 0 =
unbounded, or a positive bound), if the cancellation token is already
cancelled when `Do` is called, `Do` returns the cancellation error and
the operation is never invoked. -/
theorem c7_retrierDo_cancelled_amended (m : Int) (isR : RepoError → Bool)
    (f : Nat → Option RepoError) (cs : Nat → Bool) (fuel : Nat) (hm : 0 ≤ m) :
    retrierDo m isR f (fun _ => true) cs fuel = (.ctxCancelled, 0) := by
  simp only [retrierDo]
  rw [doLoop]
  rw [if_pos (by omega : m = 0 ∨ ((0 : Nat) : Int) < m)]
  norm_num

/-- Witness for C7 (amended): unbounded attempts (maxAttempts = 0) with an
already-cancelled token returns the cancellation error without invoking
the operation. -/
theorem c7_retrierDo_cancelled_amended_witness :
    retrierDo 0 isRetryableFunc (fun _ => some .errDuplicate) (fun _ => true) (fun _ => false) 4
      = (.ctxCancelled, 0) :=
  c7_retrierDo_cancelled_amended 0 isRetryableFunc (fun _ => some .errDuplicate)
    (fun _ => false) 4 le_rfl

/-- C10: a Retrier constructed with a negative maxAttempts returns the
"all attempts failed" wrapper around a nil error, never invokes the
operation, and never consults the cancellation token (the result is the
same for every `ctxTop`/`ctxSleep`). -/
theorem c10_retrierDo_negative (m : Int) (hm : m < 0) (isR : RepoError → Bool)
    (f : Nat → Option RepoError) (ct cs : Nat → Bool) (fuel : Nat) :
    retrierDo m isR f ct cs fuel = (.exhausted none, 0) := by
  simp only [retrierDo]
  rw [doLoop]
  rw [if_neg (by omega : ¬(m = 0 ∨ ((0 : Nat) : Int) < m))]

/-- Witness for C10: maxAttempts = -2 with an always-cancelled token and
an always-failing operation still yields the exhausted-nil result with
zero invocations. -/
theorem c10_retrierDo_negative_witness :
    retrierDo (-2) isRetryableFunc (fun _ => some .errNotFound) (fun _ => true) (fun _ => true) 7
      = (.exhausted none, 0) :=
  c10_retrierDo_negative (-2) (by norm_num) isRetryableFunc (fun _ => some .errNotFound)
    (fun _ => true) (fun _ => true) 7

/-- Counterexample for C9: with base 1s, step 1s, max 2s and jitter 0.1,
attempt 1 satisfies `B + S×attempt = M`, yet a jitter draw of u = 3/4
makes `Next` return 2.1s > M: the cap branch requires `d > Max` strictly,
so at equality the jittered value escapes the cap. -/
theorem c9_linear_counterexample :
    second + (1 : Int) * second = 2 * second
    ∧ 2 * second < LinearBackoff.Next ⟨second, second, 2 * second, 1/10⟩ 1 (3/4) := by
  constructor
  · norm_num [second]
  · norm_num [LinearBackoff.Next, addJitter, ratTrunc, second]

/-- C9 (amended): with jitter disabled (the configured jitter is outside
(0,1)) and a non-negative step (durations are non-negative), for max
M > 0 the linear backoff is non-decreasing in the attempt index — across
any two random draws — and never exceeds M once `B + S×attempt ≥ M`. -/
theorem c9_linear_amended (B S M : Int) (jit u₁ u₂ : ℚ) (i j : Nat)
    (hS : 0 ≤ S) (hM : 0 < M) (hjit : jit ≤ 0 ∨ 1 ≤ jit) (hij : i ≤ j) :
    LinearBackoff.Next ⟨B, S, M, jit⟩ i u₁ ≤ LinearBackoff.Next ⟨B, S, M, jit⟩ j u₂
    ∧ (M ≤ B + (i : Int) * S → LinearBackoff.Next ⟨B, S, M, jit⟩ i u₁ ≤ M) := by
  have hd : B + (i : Int) * S ≤ B + (j : Int) * S := by
    have hcast : (i : Int) ≤ (j : Int) := by exact_mod_cast hij
    nlinarith
  simp only [LinearBackoff.Next, addJitter, if_pos hjit]
  generalize hgi : B + (i : Int) * S = di at hd ⊢
  generalize hgj : B + (j : Int) * S = dj at hd ⊢
  constructor
  · split_ifs <;> omega
  · intro hcap
    split_ifs <;> omega

/-- Witness for C9 (amended): without jitter, Next(0) ≤ Next(1) for base
1s, step 1s, max 2s, and Next(1) stays at the cap. -/
theorem c9_linear_amended_witness :
    LinearBackoff.Next ⟨second, second, 2 * second, 0⟩ 0 0
      ≤ LinearBackoff.Next ⟨second, second, 2 * second, 0⟩ 1 0 :=
  (c9_linear_amended second second (2 * second) 0 0 0 0 1 (by norm_num [second])
    (by norm_num [second]) (Or.inl le_rfl) (by norm_num)).1
